import Mathlib

/-!
Verification of the generic topology / reference-element core of the
dune-geometry repository.

The C++ sources embedded here:
* `dune/geometry/genericgeometry/conversion.hh` — `DuneGeometryTypeProvider`,
  the `MapNumbering` specializations and `MapNumberingProvider`;
* `dune/geometry/genericgeometry/traceprovider.hh` — `TraceProvider`;
* `referenceelements.hh` (src/unnamed/part_001) — `GenericReferenceElement`,
  `GenericReferenceElementContainer`, `GenericReferenceElements`.

Headers of this repository that are not part of the provided sources
(`topologytypes.hh`, `subtopologies.hh`, `referencedomain.hh`, `type.hh`)
are modelled from the specification; each such definition carries a doc
comment starting with `Modelled from the spec:`.
-/

namespace DuneGeometry

/-!
## Definitions — the shallow embedding of the source
-/

/-- Modelled from the spec: the recursive topology value of §3
(`topologytypes.hh` is missing from the sources).  Base case `Point`
(dimension 0); `Prism B` extrudes `B`; `Pyramid B` is the cone over `B`. -/
inductive Topology where
  | point
  | prism (base : Topology)
  | pyramid (base : Topology)
deriving DecidableEq, Repr

/-- `Topology::dimension`: each composition step raises the dimension by one. -/
def tdim : Topology → Nat
  | .point => 0
  | .prism b => tdim b + 1
  | .pyramid b => tdim b + 1

/-- Modelled from the spec: `Topology::id` (`topologytypes.hh`).  Bit `k`
of the id selects prism-vs-pyramid at recursion level `k`: a `Prism` sets
bit `dimension-1`, a `Pyramid` leaves it clear. -/
def topologyId : Topology → Nat
  | .point => 0
  | .prism b => topologyId b + 2 ^ tdim b
  | .pyramid b => topologyId b

/-- Modelled from the spec: `Topology< id, dim >::type` (`topologytypes.hh`):
decode a topology id of a given dimension into the composition chain.  For
`i < 2^(d+1)` the outermost constructor is `Prism` iff bit `d` of `i` is set. -/
def topologyOf : Nat → Nat → Topology
  | 0, _ => .point
  | d+1, i =>
    if 2 ^ d ≤ i then .prism (topologyOf d (i - 2 ^ d))
    else .pyramid (topologyOf d i)

/-- Modelled from the spec: `Topology::numCorners` — vertex count of a shape
(§4.3: a prism doubles the corners of its base, a pyramid adds one apex). -/
def numCorners : Topology → Nat
  | .point => 1
  | .prism b => 2 * numCorners b
  | .pyramid b => numCorners b + 1

/-- Modelled from the spec: `GenericGeometry::Size< Topology, codim >::value`
(`subtopologies.hh`), the subentity-count recursion of §4.1:
`size(0) = 1`; `Prism(B)`: `size(c) = size_B(c) + 2·size_B(c-1)`;
`Pyramid(B)`: `size(c) = size_B(c) + size_B(c-1)`; at `c = dim` the
out-of-range base term is `0` for a prism and `1` (the apex) for a pyramid. -/
def size : Topology → Nat → Nat
  | _, 0 => 1
  | .point, _+1 => 0
  | .prism b, c+1 =>
    if c + 1 = tdim b + 1 then 2 * size b c
    else size b (c+1) + 2 * size b c
  | .pyramid b, c+1 =>
    if c + 1 = tdim b + 1 then size b c + 1
    else size b (c+1) + size b c

/-- `SimplexTopology< dim >::type`: iterated pyramid over the point. -/
def simplexT : Nat → Topology
  | 0 => .point
  | d+1 => .pyramid (simplexT d)

/-- `CubeTopology< dim >::type`: iterated prism over the point. -/
def cubeT : Nat → Topology
  | 0 => .point
  | d+1 => .prism (cubeT d)

/-- `PyramidTopology< dim >::type = Pyramid< CubeTopology< dim-1 >::type >`. -/
def pyramidT (d : Nat) : Topology := .pyramid (cubeT (d - 1))

/-- `PrismTopology< dim >::type = Prism< SimplexTopology< dim-1 >::type >`. -/
def prismT (d : Nat) : Topology := .prism (simplexT (d - 1))

/-- `MapNumberingTetrahedron::dune2generic` (= `generic2dune`):
codim 1 ↦ `3 - i`, codim 2 ↦ `edge[i]` with `edge = {0,2,1,3,4,5}`. -/
def mapTetra (codim i : Nat) : Nat :=
  if codim = 1 then 3 - i
  else if codim = 2 then ([0, 2, 1, 3, 4, 5] : List Nat).getD i 0
  else i

/-- `MapNumberingCube::dune2generic` (= `generic2dune`):
codim 2 ↦ `edge[i]` with `edge = {0,1,2,3,4,5,8,9,6,7,10,11}`. -/
def mapCube3 (codim i : Nat) : Nat :=
  if codim = 2 then ([0, 1, 2, 3, 4, 5, 8, 9, 6, 7, 10, 11] : List Nat).getD i 0
  else i

/-- `MapNumbering4DCube::dune2generic`: tables for codims 2 and 3. -/
def map4DCubeD2G (codim i : Nat) : Nat :=
  if codim = 2 then
    ([0, 1, 2, 3, 4, 5, 8, 9, 12, 13, 18, 19,
      6, 7, 10, 11, 14, 15, 20, 21, 16, 17, 22, 23] : List Nat).getD i 0
  else if codim = 3 then
    ([0, 1, 2, 3, 4, 5, 6, 7, 8, 9, 10, 11, 20, 21, 22, 23,
      12, 13, 16, 17, 24, 25, 28, 29, 14, 15, 18, 19, 26, 27, 30, 31] : List Nat).getD i 0
  else i

/-- `MapNumbering4DCube::generic2dune`: tables for codims 2 and 3. -/
def map4DCubeG2D (codim i : Nat) : Nat :=
  if codim = 2 then
    ([0, 1, 2, 3, 4, 5, 12, 13, 6, 7, 14, 15,
      8, 9, 16, 17, 20, 21, 10, 11, 18, 19, 22, 23] : List Nat).getD i 0
  else if codim = 3 then
    ([0, 1, 2, 3, 4, 5, 6, 7, 8, 9, 10, 11, 16, 17, 24, 25,
      18, 19, 26, 27, 12, 13, 14, 15, 20, 21, 28, 29, 22, 23, 30, 31] : List Nat).getD i 0
  else i

/-- `MapNumberingPyramid::dune2generic`: vertex/edge/face tables. -/
def mapPyr3D2G (codim i : Nat) : Nat :=
  if codim = 3 then ([0, 1, 3, 2, 4] : List Nat).getD i 0
  else if codim = 2 then ([2, 1, 3, 0, 4, 5, 7, 6] : List Nat).getD i 0
  else if codim = 1 then ([0, 3, 2, 4, 1] : List Nat).getD i 0
  else i

/-- `MapNumberingPyramid::generic2dune`: vertex/edge/face tables. -/
def mapPyr3G2D (codim i : Nat) : Nat :=
  if codim = 3 then ([0, 1, 3, 2, 4] : List Nat).getD i 0
  else if codim = 2 then ([3, 1, 0, 2, 4, 5, 7, 6] : List Nat).getD i 0
  else if codim = 1 then ([0, 4, 2, 1, 3] : List Nat).getD i 0
  else i

/-- `MapNumberingPrism::dune2generic`: edge/face tables. -/
def mapPrism3D2G (codim i : Nat) : Nat :=
  if codim = 2 then ([3, 5, 4, 0, 1, 2, 6, 8, 7] : List Nat).getD i 0
  else if codim = 1 then ([3, 0, 2, 1, 4] : List Nat).getD i 0
  else i

/-- `MapNumberingPrism::generic2dune`: edge/face tables. -/
def mapPrism3G2D (codim i : Nat) : Nat :=
  if codim = 2 then ([3, 4, 5, 0, 2, 1, 6, 8, 7] : List Nat).getD i 0
  else if codim = 1 then ([1, 3, 2, 0, 4] : List Nat).getD i 0
  else i

/-- Dispatch of the `MapNumbering< Topology >` specializations
(conversion.hh): `dune2generic`.  `none` where no specialization exists
(`MapNumbering` is only declared, never defined, for other topologies). -/
def mapNumberingD2G (T : Topology) (codim i : Nat) : Option Nat :=
  match T with
  | .point => some i
  | .prism .point => some i
  | .pyramid .point => some i
  | .pyramid (.pyramid .point) => some (if codim = 1 then 2 - i else i)
  | .pyramid (.prism .point) => some (if codim = 1 then 2 - i else i)
  | .prism (.pyramid .point) => some i
  | .prism (.prism .point) => some i
  | .pyramid (.pyramid (.pyramid .point)) => some (mapTetra codim i)
  | .pyramid (.pyramid (.prism .point)) => some (mapTetra codim i)
  | .prism (.prism (.pyramid .point)) => some (mapCube3 codim i)
  | .prism (.prism (.prism .point)) => some (mapCube3 codim i)
  | .prism (.prism (.prism (.pyramid .point))) => some (map4DCubeD2G codim i)
  | .prism (.prism (.prism (.prism .point))) => some (map4DCubeD2G codim i)
  | .pyramid (.prism (.pyramid .point)) => some (mapPyr3D2G codim i)
  | .pyramid (.prism (.prism .point)) => some (mapPyr3D2G codim i)
  | .prism (.pyramid (.pyramid .point)) => some (mapPrism3D2G codim i)
  | .prism (.pyramid (.prism .point)) => some (mapPrism3D2G codim i)
  | _ => none

/-- Dispatch of the `MapNumbering< Topology >` specializations: `generic2dune`
(for the identity, triangle, tetrahedron and 3D-cube families it coincides
with `dune2generic`, exactly as in the source). -/
def mapNumberingG2D (T : Topology) (codim i : Nat) : Option Nat :=
  match T with
  | .point => some i
  | .prism .point => some i
  | .pyramid .point => some i
  | .pyramid (.pyramid .point) => some (if codim = 1 then 2 - i else i)
  | .pyramid (.prism .point) => some (if codim = 1 then 2 - i else i)
  | .prism (.pyramid .point) => some i
  | .prism (.prism .point) => some i
  | .pyramid (.pyramid (.pyramid .point)) => some (mapTetra codim i)
  | .pyramid (.pyramid (.prism .point)) => some (mapTetra codim i)
  | .prism (.prism (.pyramid .point)) => some (mapCube3 codim i)
  | .prism (.prism (.prism .point)) => some (mapCube3 codim i)
  | .prism (.prism (.prism (.pyramid .point))) => some (map4DCubeG2D codim i)
  | .prism (.prism (.prism (.prism .point))) => some (map4DCubeG2D codim i)
  | .pyramid (.prism (.pyramid .point)) => some (mapPyr3G2D codim i)
  | .pyramid (.prism (.prism .point)) => some (mapPyr3G2D codim i)
  | .prism (.pyramid (.pyramid .point)) => some (mapPrism3G2D codim i)
  | .prism (.pyramid (.prism .point)) => some (mapPrism3G2D codim i)
  | _ => none

/-- `MapNumberingProvider< dim >::dune2generic( topologyId, i, codim )`:
the provider tabulates `MapNumbering< Topology< topologyId, dim >::type >`
for `i < Size< Topology, codim >::value` and looks the table up. -/
def dune2generic (dim tid i codim : Nat) : Option Nat :=
  mapNumberingD2G (topologyOf dim tid) codim i

/-- `MapNumberingProvider< dim >::generic2dune( topologyId, i, codim )`. -/
def generic2dune (dim tid i codim : Nat) : Option Nat :=
  mapNumberingG2D (topologyOf dim tid) codim i

/-- Both round trips of the numbering maps at one index: `dune2generic`
lands inside `[0, size codim)` and `generic2dune` maps it back, and
conversely. -/
def mnRoundtrip (T : Topology) (codim i : Nat) : Bool :=
  (match mapNumberingD2G T codim i with
   | some j => decide (j < size T codim) && (mapNumberingG2D T codim j == some i)
   | none => false) &&
  (match mapNumberingG2D T codim i with
   | some j => decide (j < size T codim) && (mapNumberingD2G T codim j == some i)
   | none => false)

/-- `GenericReferenceElement< void, dim >::size( c )` after
`initializeTopology< Topology >()`: it returns `info_[ c ].size()`
(part_001 lines 54–58), and `Initialize::Codim< codim >::apply` resizes
`info_[ codim ]` to `GenericGeometry::Size< Topology, codim >::value`
(part_001 lines 235–240). -/
def refElemSize (T : Topology) (c : Nat) : Nat := size T c

/-- Modelled from the spec: the basic-kind component of a `GeometryType`
(`type.hh` is missing from the sources; §3 ShapeDescriptor:
`basicKind ∈ {simplex, cube, prism, pyramid, none}`). -/
inductive BasicKind where
  | simplex
  | cube
  | pyramid
  | prism
  | nonetype
deriving DecidableEq, Repr

/-- Modelled from the spec: a `GeometryType` value as basic kind plus
dimension (§3 ShapeDescriptor tuple `(basicKind, dimension)`). -/
structure GType where
  basic : BasicKind
  gdim : Nat
deriving DecidableEq, Repr

/-- The contents of `DuneGeometryTypeProvider< dim, linetype >::types_` after
the constructor ran (conversion.hh lines 137–160), as a function of the array
index.  For `dim > 3` every entry is first `makeNone`d; then for `dim ≥ 3`
the four pairwise-distinct indices `0`, `2^(dim-2)`, `2^(dim-2) - 1` and
`2^(dim-1) - 1` are assigned simplex, prism, pyramid and cube; for `dim = 2`
indices 0 and 1 get simplex and cube; otherwise the single entry is
`GeometryType( linetype, dim )`.  Entries the constructor never touches
(none exist below the array size) are modelled as `nonetype`. -/
def providerEntry (d : Nat) (lt : BasicKind) (idx : Nat) : GType :=
  if 3 ≤ d then
    if idx = 2 ^ (d - 1) - 1 then ⟨.cube, d⟩
    else if idx = 2 ^ (d - 2) then ⟨.prism, d⟩
    else if idx = 2 ^ (d - 2) - 1 then ⟨.pyramid, d⟩
    else if idx = 0 then ⟨.simplex, d⟩
    else ⟨.nonetype, d⟩
  else if d = 2 then
    if idx = 1 then ⟨.cube, 2⟩
    else if idx = 0 then ⟨.simplex, 2⟩
    else ⟨.nonetype, 2⟩
  else ⟨lt, d⟩

/-- `DuneGeometryTypeProvider< dim, linetype >::type( topologyId )`
(conversion.hh lines 175–179): returns `types_[ topologyId / 2 ]`. -/
def providerType (d : Nat) (lt : BasicKind) (tid : Nat) : GType :=
  providerEntry d lt (tid / 2)

/-- Modelled from the spec: `SubTopology< Topology, codim, i >::type`
(`subtopologies.hh`): the subtopology at index `i` of codimension `codim`
(§4.1: the index determines "which copy — base, top, side, or apex-cone —
it falls into").  For a prism the first `size_B(c)` indices are prisms over
the base's codim-`c` subentities, then come the bottom and the top copies of
the base's codim-(c-1) subentities; for a pyramid the first `size_B(c-1)`
indices are the base's codim-(c-1) subentities, then cones over the base's
codim-`c` subentities; at `codim = dim` every subtopology is the point. -/
def subTopology : Topology → Nat → Nat → Topology
  | T, 0, _ => T
  | .point, _+1, _ => .point
  | .prism b, c+1, i =>
    if c + 1 = tdim b + 1 then .point
    else if i < size b (c+1) then .prism (subTopology b (c+1) i)
    else if i < size b (c+1) + size b c then subTopology b c (i - size b (c+1))
    else subTopology b c (i - size b (c+1) - size b c)
  | .pyramid b, c+1, i =>
    if c + 1 = tdim b + 1 then .point
    else if i < size b c then subTopology b c i
    else .pyramid (subTopology b (c+1) (i - size b c))

/-- `GenericReferenceElement< void, dim >::size( i, c, cc )` (part_001
lines 71–75): the number of codim-`cc` subentities of subentity `(i, c)`,
i.e. the codim-(cc-c) subentity count of the subtopology at `(i, c)`
(the `SubEntityInfo` numbering vector at `cc` is resized to
`SubTopologySize< Topology, c, cc-c >::size( i )`). -/
def subEntitySize (T : Topology) (i c cc : Nat) : Nat :=
  size (subTopology T c i) (cc - c)

/-- The value taken by the function-local
`static const unsigned int numCorners = Base::size( i, codim, dim );`
inside `GenericReferenceElement::initializeTopology` (part_001 line 494):
a local `static` is dynamically initialized exactly once, when control
first reaches it — at the first iteration `codim = 0, i = 0` of the
barycenter loops — so every later iteration reuses
`Base::size( 0, 0, dim )`, the corner count of the whole cell. -/
def staticNumCorners (T : Topology) : Nat := subEntitySize T 0 0 (tdim T)

/-- The data of a reference element singleton that
`GenericReferenceElement::initializeTopology< Topology >` determines:
the topology it was initialized from together with its subentity-count
table (all remaining geometric data is a function of the same topology). -/
structure RefElement where
  topo : Topology
  sizes : List Nat
deriving DecidableEq, Repr

/-- `values_[ t ].initializeTopology< Topology< t, dim >::type >()` as the
element value it produces. -/
def initRefElement (T : Topology) : RefElement :=
  ⟨T, (List.range (tdim T + 1)).map (size T)⟩

/-- `GenericReferenceElementContainer< ctype, dim >` after its constructor:
`ForLoop< Builder, 0, numTopologies-1 >::apply( values_ )` initializes
`values_[ t ]` from `Topology< t, dim >::type` for every
`t < numTopologies = 2^dim` (part_001 lines 645–701). -/
def buildContainer (d : Nat) : List RefElement :=
  (List.range (2 ^ d)).map (fun t => initRefElement (topologyOf d t))

/-- Modelled from the spec: the part of a runtime `GeometryType` the
container consults — `type.id()` and `type.dim()` (`type.hh` is missing
from the sources). -/
structure GeomDesc where
  gid : Nat
  gdim : Nat

/-- `GenericReferenceElementContainer::operator()( const GeometryType & )`
(part_001 lines 655–659): asserts `type.dim() == dim` and returns
`values_[ type.id() ]`. -/
def generalAccess (d : Nat) (c : List RefElement) (g : GeomDesc) :
    Option RefElement :=
  if g.gdim = d then c.get? g.gid else none

/-- `GenericReferenceElementContainer::simplex()`:
`values_[ SimplexTopology< dim >::type::id ]`. -/
def simplexAccess (d : Nat) (c : List RefElement) : Option RefElement :=
  c.get? (topologyId (simplexT d))

/-- `GenericReferenceElementContainer::cube()`:
`values_[ CubeTopology< dim >::type::id ]`. -/
def cubeAccess (d : Nat) (c : List RefElement) : Option RefElement :=
  c.get? (topologyId (cubeT d))

/-- `GenericReferenceElementContainer::pyramid()`:
`values_[ PyramidTopology< dim >::type::id ]`. -/
def pyramidAccess (d : Nat) (c : List RefElement) : Option RefElement :=
  c.get? (topologyId (pyramidT d))

/-- `GenericReferenceElementContainer::prism()`:
`values_[ PrismTopology< dim >::type::id ]`. -/
def prismAccess (d : Nat) (c : List RefElement) : Option RefElement :=
  c.get? (topologyId (prismT d))

/-- One access to the function-local static of
`GenericReferenceElements::container()` (part_001 lines 745–749): the
first access constructs the container, later accesses return the cached
value.  The `Nat` component counts constructions performed so far. -/
def containerStep (d : Nat) :
    Option (List RefElement) × Nat → List RefElement × (Option (List RefElement) × Nat)
  | (none, k) => (buildContainer d, (some (buildContainer d), k + 1))
  | (some v, k) => (v, (some v, k))

/-- Cache state after `n` accesses, starting from the uninitialized state. -/
def containerState (d : Nat) : Nat → Option (List RefElement) × Nat
  | 0 => (none, 0)
  | n+1 => (containerStep d (containerState d n)).2

/-- The kind of object `TraceProvider` constructs into the caller-supplied
buffer: either the concrete `CachedMapping` over a subtopology (non-hybrid
factory) or a `VirtualMapping` over a subtopology (hybrid factory). -/
inductive TraceKind where
  | cachedMapping (sub : Topology)
  | virtualMapping (sub : Topology)
deriving DecidableEq, Repr

/-- `HybridFactory::construct< i >` (traceprovider.hh lines 101–106):
placement-constructs `VirtualMapping< SubTopology< Topology, codim, i >::type >`
from the trace of the parent mapping. -/
def hybridEntry (T : Topology) (codim i : Nat) : TraceKind :=
  .virtualMapping (subTopology T codim i)

/-- `NonHybridFactory::construct< i >` (traceprovider.hh lines 121–125):
placement-constructs `CachedMapping< SubTopology< Topology, codim, 0 >::type >`
— the codimension's one concrete subtopology type, index 0 — for every `i`. -/
def nonHybridEntry (T : Topology) (codim _i : Nat) : TraceKind :=
  .cachedMapping (subTopology T codim 0)

/-- The dispatch table `construct_` filled at the one-time construction of
the `TraceProvider` singleton: `ForLoop< Builder, 0, numSubTopologies-1 >`
binds entry `i` to `Factory::construct< i >` (traceprovider.hh lines 70–73
and 130–138); `hybrid = forceHybrid || IsCodimHybrid< Topology, codim >`. -/
def traceTable (T : Topology) (codim : Nat) (hybrid : Bool) : List TraceKind :=
  (List.range (size T codim)).map
    (fun i => if hybrid then hybridEntry T codim i else nonHybridEntry T codim i)

/-- `TraceProvider::construct( mapping, i, traceStorage )` (traceprovider.hh
lines 62–65): invokes the dispatch-table entry bound to index `i`. -/
def traceConstruct (T : Topology) (codim : Nat) (hybrid : Bool) (i : Nat) :
    Option TraceKind :=
  (traceTable T codim hybrid).get? i

/-- The outcome of `GenericReferenceElement::global< codim >( local, i, c )`
(part_001 lines 391–399): `DUNE_THROW( Exception, ... )` when the runtime
argument `c` differs from the template codimension, otherwise the value
`mapping< codim >( i ).global( local )`.  The mapping's global evaluation
enters as the function parameter `mg`; the method is `const` and the
embedding is a pure function of its arguments. -/
def refGlobal (codim : Nat) (mg : Nat → List Rat → List Rat)
    (lcl : List Rat) (i c : Nat) : Except String (List Rat) :=
  if c ≠ codim then
    .error "Local Coordinate Type does not correspond to codimension c."
  else .ok (mg i lcl)

/-- The observable steps of `~GenericReferenceElement`: an explicit
destructor call on a placement-constructed mapping, the `delete[]` of its
character buffer, and the plain `delete` of the codimension-0 mapping. -/
inductive DtorEvent where
  | callDtor (c i : Nat)
  | releaseStorage (c i : Nat)
  | deleteCodim0
deriving DecidableEq, Repr

/-- `Destroy< codim >::apply` (part_001 lines 618–628): for each stored
mapping of the codimension, invoke `~Mapping()` explicitly and then
`delete[]` its buffer. -/
def levelDestroy (c n : Nat) : List DtorEvent :=
  (List.range n).flatMap (fun i => [.callDtor c i, .releaseStorage c i])

/-- The event trace of `~GenericReferenceElement` (part_001 lines 279–285):
`ForLoop< Destroy, 1, dim >::apply( mappings_ )` runs `Destroy< 1 >` up to
`Destroy< dim >` in this order, then the codimension-0 mapping — the only
one allocated with plain `new` — is `delete`d if present; `sizes c` is
`mappings_[ c ].size()`. -/
def destructorTrace (dim : Nat) (sizes : Nat → Nat) : List DtorEvent :=
  ((List.range' 1 dim).flatMap fun c => levelDestroy c (sizes c)) ++
    (if sizes 0 ≠ 0 then [.deleteCodim0] else [])

/-- `mappings_[ c ].size()` after `initializeTopology`: one codimension-0
mapping, and `size( c )` traces for each codimension `c ≥ 1`. -/
def mappingSizes (T : Topology) (c : Nat) : Nat :=
  if c = 0 then 1 else size T c

/-- The codimension an event belongs to. -/
def evCodim : DtorEvent → Nat
  | .callDtor c _ => c
  | .releaseStorage c _ => c
  | .deleteCodim0 => 0

/-!
## Theorems — sanity checks, helper lemmas and the claims
-/

example : size (cubeT 2) 1 = 4 := by decide

example : size (cubeT 2) 2 = 4 := by decide

example : size (pyramidT 3) 1 = 5 := by decide

example : size (pyramidT 3) 2 = 8 := by decide

example : size (pyramidT 3) 3 = 5 := by decide

example : size (prismT 3) 2 = 9 := by decide

example : size (simplexT 3) 2 = 6 := by decide

example : topologyOf 3 5 = .prism (.pyramid (.prism .point)) := by decide

example : topologyId (cubeT 3) = 7 := by decide

example : topologyId (pyramidT 3) = 3 := by decide

example : topologyId (prismT 3) = 4 := by decide

theorem size_zero (T : Topology) : size T 0 = 1 := by
  cases T <;> rfl

theorem size_tdim (T : Topology) : size T (tdim T) = numCorners T := by
  induction T with
  | point => rfl
  | prism b ih => simp [size, tdim, numCorners, ih]
  | pyramid b ih => simp [size, tdim, numCorners, ih]

theorem tdim_topologyOf (d t : Nat) : tdim (topologyOf d t) = d := by
  induction d generalizing t with
  | zero => rfl
  | succ d ih =>
    unfold topologyOf
    split <;> simp [tdim, ih]

theorem tdim_cubeT (d : Nat) : tdim (cubeT d) = d := by
  induction d <;> simp [cubeT, tdim, *]

theorem tdim_simplexT (d : Nat) : tdim (simplexT d) = d := by
  induction d <;> simp [simplexT, tdim, *]

theorem numCorners_cubeT (d : Nat) : numCorners (cubeT d) = 2 ^ d := by
  induction d with
  | zero => rfl
  | succ d ih => simp [cubeT, numCorners, ih, pow_succ, Nat.mul_comm]

theorem numCorners_simplexT (d : Nat) : numCorners (simplexT d) = d + 1 := by
  induction d <;> simp [simplexT, numCorners, *]

/-- C1, as stated, is false: the claim quantifies over every
`topologyId < 2^dim` for every `dim ≤ 4`, but `MapNumbering` has no
specialization for most 4-dimensional topologies (e.g. the 4D simplex,
`topologyId = 0`), so no numbering map exists there at all and the
round-trip identity fails at `dim = 4, topologyId = 0, codim = 0, i = 0`. -/
theorem C1_counterexample :
    ¬ (∀ d < 5, ∀ t < 2 ^ d, ∀ c < d + 1, ∀ i < size (topologyOf d t) c,
        mnRoundtrip (topologyOf d t) c i = true) := by
  decide

/-- C1 (amended): for every topology that has a tabulated `MapNumbering`
specialization — every `topologyId < 2^dim` for `dim ≤ 3`, and the two 4D
cube ids 14 and 15 — and every `codim ≤ dim`, the precomputed maps
`dune2generic` / `generic2dune` are mutually inverse bijections on
`[0, size(codim))`. -/
theorem C1_maps_mutually_inverse :
    (∀ d < 4, ∀ t < 2 ^ d, ∀ c < d + 1, ∀ i < size (topologyOf d t) c,
      mnRoundtrip (topologyOf d t) c i = true) ∧
    (∀ t < 16, (t = 14 ∨ t = 15) → ∀ c < 5, ∀ i < size (topologyOf 4 t) c,
      mnRoundtrip (topologyOf 4 t) c i = true) := by
  decide

/-- Witness for C1: the 3D-pyramid edge maps (dim 3, id 2, codim 2, i 5)
and the 4D-cube codim-2 maps (id 14, i 10) round-trip. -/
theorem C1_witness :
    mnRoundtrip (topologyOf 3 2) 2 5 = true ∧
    mnRoundtrip (topologyOf 4 14) 2 10 = true := by
  exact ⟨C1_maps_mutually_inverse.1 3 (by decide) 2 (by decide) 2 (by decide) 5 (by decide),
         C1_maps_mutually_inverse.2 14 (by decide) (Or.inl rfl) 2 (by decide) 10 (by decide)⟩

/-- C5: for every `topologyId < 2^dim`, the reference element's subentity
counts satisfy `size(0) = 1` and `size(dim) = numCorners` (the shape's
vertex count); for the cube the latter is `2^dim` and for the simplex
`dim + 1`. -/
theorem C5_size_zero_and_vertex_count :
    ∀ d t, t < 2 ^ d →
      refElemSize (topologyOf d t) 0 = 1 ∧
      refElemSize (topologyOf d t) d = numCorners (topologyOf d t) ∧
      refElemSize (cubeT d) d = 2 ^ d ∧
      refElemSize (simplexT d) d = d + 1 := by
  intro d t _
  refine ⟨size_zero _, ?_, ?_, ?_⟩
  · have h := size_tdim (topologyOf d t)
    rwa [tdim_topologyOf] at h
  · have h := size_tdim (cubeT d)
    rwa [tdim_cubeT, numCorners_cubeT] at h
  · have h := size_tdim (simplexT d)
    rwa [tdim_simplexT, numCorners_simplexT] at h

/-- Witness for C5 at the 3D prism (dim 3, id 4): `size(0) = 1`,
`size(3) = 6` vertices, and the closed forms at dimension 3. -/
theorem C5_witness :
    refElemSize (topologyOf 3 4) 0 = 1 ∧
    refElemSize (topologyOf 3 4) 3 = numCorners (topologyOf 3 4) ∧
    refElemSize (cubeT 3) 3 = 2 ^ 3 ∧
    refElemSize (simplexT 3) 3 = 3 + 1 := by
  have h := C5_size_zero_and_vertex_count 3 4 (by decide)
  exact ⟨h.1, h.2.1, h.2.2.1, h.2.2.2⟩

/-- C3, as stated, is false: at `dim = 4`, `topologyId = 8` (a prism over a
3D simplex, neither the 4D simplex nor the 4D cube) the provider returns the
prism `GeometryType`, not `none`. -/
theorem C3_counterexample :
    providerType 4 .simplex 8 = ⟨.prism, 4⟩ ∧
    topologyOf 4 8 ≠ simplexT 4 ∧
    topologyOf 4 8 ≠ cubeT 4 ∧
    (⟨.prism, 4⟩ : GType) ≠ ⟨.nonetype, 4⟩ := by
  decide

/-- C3 (amended): for every dimension `dim > 3` and `topologyId < 2^dim`,
the provider returns the simplex `GeometryType` for ids 0 and 1, the cube
for ids `2^dim - 2` and `2^dim - 1`, the prism for ids `2^(dim-1)` and
`2^(dim-1) + 1`, the pyramid for ids `2^(dim-1) - 2` and `2^(dim-1) - 1`,
and the `none` type for every other id. -/
theorem C3_provider_type :
    ∀ d, 3 < d → ∀ lt tid, tid < 2 ^ d →
      providerType d lt tid =
        if tid ≤ 1 then ⟨.simplex, d⟩
        else if 2 ^ d - 2 ≤ tid then ⟨.cube, d⟩
        else if tid = 2 ^ (d - 1) ∨ tid = 2 ^ (d - 1) + 1 then ⟨.prism, d⟩
        else if tid = 2 ^ (d - 1) - 2 ∨ tid = 2 ^ (d - 1) - 1 then ⟨.pyramid, d⟩
        else ⟨.nonetype, d⟩ := by
  intro d hd lt tid htid
  have h3 : 3 ≤ d := by omega
  set m := 2 ^ (d - 2) with hm
  have hm4 : 4 ≤ m := by
    have : 2 ^ 2 ≤ 2 ^ (d - 2) := Nat.pow_le_pow_right (by norm_num) (by omega)
    omega
  have hd1 : 2 ^ (d - 1) = 2 * m := by
    have : d - 1 = (d - 2) + 1 := by omega
    rw [this, pow_succ, hm]
    ring
  have hd0 : 2 ^ d = 4 * m := by
    have : d = (d - 2) + 2 := by omega
    rw [this, pow_add, hm]
    ring
  rw [hd0] at htid
  simp only [providerType, providerEntry, if_pos h3, hd1, hd0, ← hm]
  split_ifs <;> first | rfl | (exfalso; omega)

/-- Witness for C3 at `dim = 4`, `topologyId = 6` (a pyramid over the 3D
cube): the provider returns the pyramid `GeometryType`. -/
theorem C3_witness : providerType 4 .cube 6 = ⟨.pyramid, 4⟩ := by
  have h := C3_provider_type 4 (by decide) .cube 6 (by decide)
  simpa using h

/-- C10: for every dimension `dim ≥ 1` and `topologyId < 2^dim`,
`DuneGeometryTypeProvider::type( topologyId )` equals
`type( topologyId ^ 1 )`: the provider reads `types_[ topologyId / 2 ]`,
and `topologyId / 2` is unchanged by flipping bit 0, so the
prism-versus-pyramid choice at recursion level 0 never affects the
assigned geometry type. -/
theorem C10_type_ignores_bit_zero :
    ∀ d, 1 ≤ d → ∀ lt tid, tid < 2 ^ d →
      providerType d lt tid = providerType d lt (tid ^^^ 1) := by
  intro d _ lt tid _
  unfold providerType
  rw [Nat.xor_div_two]
  norm_num

/-- Witness for C10 at `dim = 4`, `topologyId = 14` (the 4D cube with a
pyramid at level 0 is id 15 = 14 ^ 1, and both get the cube type). -/
theorem C10_witness : providerType 4 .cube 14 = providerType 4 .cube (14 ^^^ 1) :=
  C10_type_ignores_bit_zero 4 (by decide) .cube 14 (by decide)

/-- C2 (code bug): on the 2D cube the barycenter loop's divisor and
upper bound `numCorners` is the frozen static value
`Base::size( 0, 0, 2 ) = 4` for *every* `(codim, i)`, but the claimed
arithmetic mean for edge `(0, 1)` requires its own corner count
`Base::size( 0, 1, 2 ) = 2`; the sum is divided by 4 instead of 2 and
`j` runs to 4 over the edge's 2-entry vertex-numbering vector. -/
theorem C2_static_corner_count_frozen :
    staticNumCorners (cubeT 2) = 4 ∧
    subEntitySize (cubeT 2) 0 1 2 = 2 ∧
    staticNumCorners (cubeT 2) ≠ subEntitySize (cubeT 2) 0 1 2 := by
  decide

theorem topologyId_lt (T : Topology) : topologyId T < 2 ^ tdim T := by
  induction T with
  | point => decide
  | prism b ih =>
    simp only [topologyId, tdim, pow_succ]
    omega
  | pyramid b ih =>
    simp only [topologyId, tdim, pow_succ]
    omega

theorem topologyOf_topologyId (T : Topology) :
    topologyOf (tdim T) (topologyId T) = T := by
  induction T with
  | point => rfl
  | prism b ih =>
    have hle : 2 ^ tdim b ≤ topologyId b + 2 ^ tdim b := by omega
    simp [topologyOf, tdim, topologyId, hle, ih]
  | pyramid b ih =>
    have hlt := topologyId_lt b
    simp [topologyOf, tdim, topologyId, Nat.not_le.mpr hlt, ih]

theorem containerState_succ (d n : Nat) :
    containerState d (n + 1) = (some (buildContainer d), 1) := by
  induction n with
  | zero => rfl
  | succ n ih =>
    show (containerStep d (containerState d (n + 1))).2 = _
    rw [ih]
    rfl

theorem buildContainer_get (d t : Nat) (ht : t < 2 ^ d) :
    (buildContainer d).get? t = some (initRefElement (topologyOf d t)) := by
  simp [buildContainer, List.get?_eq_getElem?, List.getElem?_map, List.getElem?_range, ht]

theorem get_at_topologyId (d : Nat) (T : Topology) (hT : tdim T = d) :
    (buildContainer d).get? (topologyId T) = some (initRefElement T) := by
  have hlt : topologyId T < 2 ^ d := hT ▸ topologyId_lt T
  rw [buildContainer_get d _ hlt, ← hT, topologyOf_topologyId]

/-- C4: the registry holds exactly `2^dim` reference elements, the one at
index `id` initialized from `Topology< id, dim >::type`; `general( type )`
with `type.dim() == dim` returns the element at index `type.id()`; the
`simplex()`, `cube()`, `pyramid()` and `prism()` shorthands return the
elements at the ids of the corresponding named topologies; every access to
the lazily-initialized static returns the same fully built container, and
exactly one construction ever occurs. -/
theorem C4_registry :
    ∀ d, 1 ≤ d →
      (buildContainer d).length = 2 ^ d ∧
      (∀ t < 2 ^ d, (buildContainer d).get? t = some (initRefElement (topologyOf d t))) ∧
      (∀ g : GeomDesc, g.gdim = d → g.gid < 2 ^ d →
        generalAccess d (buildContainer d) g = some (initRefElement (topologyOf d g.gid))) ∧
      simplexAccess d (buildContainer d) = some (initRefElement (simplexT d)) ∧
      cubeAccess d (buildContainer d) = some (initRefElement (cubeT d)) ∧
      pyramidAccess d (buildContainer d) = some (initRefElement (pyramidT d)) ∧
      prismAccess d (buildContainer d) = some (initRefElement (prismT d)) ∧
      (∀ n, (containerStep d (containerState d n)).1 = buildContainer d) ∧
      (∀ n, 1 ≤ n → containerState d n = (some (buildContainer d), 1)) := by
  intro d hd
  refine ⟨by simp [buildContainer], fun t ht => buildContainer_get d t ht,
    fun g hgd hgi => ?_, ?_, ?_, ?_, ?_, fun n => ?_, fun n hn => ?_⟩
  · unfold generalAccess
    rw [if_pos hgd]
    exact buildContainer_get d _ hgi
  · exact get_at_topologyId d _ (tdim_simplexT d)
  · exact get_at_topologyId d _ (tdim_cubeT d)
  · exact get_at_topologyId d _ (by simp [pyramidT, tdim, tdim_cubeT]; omega)
  · exact get_at_topologyId d _ (by simp [prismT, tdim, tdim_simplexT]; omega)
  · cases n with
    | zero => rfl
    | succ n => rw [containerState_succ]; rfl
  · cases n with
    | zero => omega
    | succ n => exact containerState_succ d n

/-- Witness for C4 at `dim = 2`: the container has 4 elements, a lookup by
descriptor `(id 3, dim 2)` yields the element built from topology id 3, and
after 3 accesses the static was constructed exactly once. -/
theorem C4_witness :
    (buildContainer 2).length = 2 ^ 2 ∧
    generalAccess 2 (buildContainer 2) ⟨3, 2⟩ = some (initRefElement (topologyOf 2 3)) ∧
    containerState 2 3 = (some (buildContainer 2), 1) := by
  have h := C4_registry 2 (by decide)
  exact ⟨h.1, h.2.2.1 ⟨3, 2⟩ rfl (by decide), h.2.2.2.2.2.2.2.2 3 (by decide)⟩

theorem traceTable_get (T : Topology) (codim : Nat) (hybrid : Bool)
    (i : Nat) (hi : i < size T codim) :
    traceConstruct T codim hybrid i =
      some (if hybrid then hybridEntry T codim i else nonHybridEntry T codim i) := by
  simp [traceConstruct, traceTable, List.get?_eq_getElem?, List.getElem?_map,
    List.getElem?_range, hi]

/-- C6: for every subentity index `i < numSubTopologies` the dispatch-table
entry bound to index `i` is invoked; in hybrid mode it constructs
`VirtualMapping` over the `i`-th subtopology of the codimension, in
non-hybrid mode the one concrete `CachedMapping` over the codimension's
subtopology at index 0 (the same for every `i`). -/
theorem C6_trace_dispatch :
    ∀ (T : Topology) (codim : Nat) (hybrid : Bool), ∀ i, i < size T codim →
      (hybrid = true →
        traceConstruct T codim hybrid i =
          some (.virtualMapping (subTopology T codim i))) ∧
      (hybrid = false →
        traceConstruct T codim hybrid i =
          some (.cachedMapping (subTopology T codim 0)) ∧
        (∀ j, j < size T codim →
          traceConstruct T codim hybrid i = traceConstruct T codim hybrid j)) := by
  intro T codim hybrid i hi
  constructor
  · intro hh
    subst hh
    simpa using traceTable_get T codim true i hi
  · intro hh
    subst hh
    refine ⟨by simpa using traceTable_get T codim false i hi, fun j hj => ?_⟩
    rw [traceTable_get T codim false i hi, traceTable_get T codim false j hj]
    simp [nonHybridEntry]

/-- Witness for C6 on the 3D pyramid at codimension 1, index 1: the hybrid
factory constructs a `VirtualMapping` over the face's own subtopology, the
non-hybrid factory the `CachedMapping` over the subtopology at index 0. -/
theorem C6_witness :
    traceConstruct (pyramidT 3) 1 true 1 =
      some (.virtualMapping (subTopology (pyramidT 3) 1 1)) ∧
    traceConstruct (pyramidT 3) 1 false 1 =
      some (.cachedMapping (subTopology (pyramidT 3) 1 0)) := by
  have h := C6_trace_dispatch (pyramidT 3) 1 true 1 (by decide)
  have h' := C6_trace_dispatch (pyramidT 3) 1 false 1 (by decide)
  exact ⟨h.1 rfl, (h'.2 rfl).1⟩

/-- C7: `global< codim >( local, i, c )` raises an exception if and only if
`c ≠ codim`; when `c = codim` it returns `mapping< codim >( i ).global( local )`
unchanged. -/
theorem C7_global_mismatch :
    ∀ (codim : Nat) (mg : Nat → List Rat → List Rat) (lcl : List Rat) (i c : Nat),
      ((∃ e, refGlobal codim mg lcl i c = .error e) ↔ c ≠ codim) ∧
      (c = codim → refGlobal codim mg lcl i c = .ok (mg i lcl)) := by
  intro codim mg lcl i c
  by_cases hc : c = codim
  · refine ⟨⟨fun ⟨e, he⟩ => ?_, fun h => absurd hc h⟩, fun _ => by simp [refGlobal, hc]⟩
    simp [refGlobal, hc] at he
  · refine ⟨⟨fun _ => hc, fun _ => ?_⟩, fun h => absurd h hc⟩
    exact ⟨"Local Coordinate Type does not correspond to codimension c.",
      by simp [refGlobal, hc]⟩

/-- Witness for C7 at template codimension 1: the call with runtime `c = 2`
errors, the call with `c = 1` returns the mapping's value. -/
theorem C7_witness :
    (∃ e, refGlobal 1 (fun _ l => l) [] 0 2 = Except.error e) ∧
    refGlobal 1 (fun _ l => l) [] 0 1 = Except.ok [] := by
  exact ⟨(C7_global_mismatch 1 (fun _ l => l) [] 0 2).1.mpr (by decide),
         (C7_global_mismatch 1 (fun _ l => l) [] 0 1).2 rfl⟩

theorem levelDestroy_succ (c n : Nat) :
    levelDestroy c (n + 1) =
      levelDestroy c n ++ [.callDtor c n, .releaseStorage c n] := by
  rw [levelDestroy, levelDestroy, List.range_succ, List.flatMap_append]
  rfl

theorem levelDestroy_length (c n : Nat) : (levelDestroy c n).length = 2 * n := by
  induction n with
  | zero => rfl
  | succ n ih =>
    rw [levelDestroy_succ, List.length_append, ih]
    simp only [List.length_cons, List.length_nil]
    omega

theorem levelDestroy_getElem (c n k : Nat) (hk : k < n) :
    (levelDestroy c n)[2 * k]? = some (.callDtor c k) ∧
    (levelDestroy c n)[2 * k + 1]? = some (.releaseStorage c k) := by
  induction n with
  | zero => omega
  | succ n ih =>
    rw [levelDestroy_succ]
    rcases Nat.lt_or_ge k n with h | h
    · have hlen : 2 * k + 1 < (levelDestroy c n).length := by
        rw [levelDestroy_length]
        omega
      exact ⟨by rw [List.getElem?_append_left (by omega)]; exact (ih h).1,
             by rw [List.getElem?_append_left hlen]; exact (ih h).2⟩
    · have hk' : k = n := by omega
      subst hk'
      have hlen := levelDestroy_length c k
      constructor
      · rw [List.getElem?_append_right (by omega), hlen]
        simp
      · rw [List.getElem?_append_right (by omega), hlen]
        simp

theorem mem_levelDestroy (c n : Nat) (e : DtorEvent) (he : e ∈ levelDestroy c n) :
    evCodim e = c ∧ e ≠ .deleteCodim0 := by
  rw [levelDestroy, List.mem_flatMap] at he
  obtain ⟨i, _, hi⟩ := he
  simp only [List.mem_cons, List.not_mem_nil, or_false] at hi
  rcases hi with h | h <;> subst h <;> simp [evCodim]

theorem adjacent_in_flatMap {α β : Type} (L : List α) (F : α → List β) (a : α)
    (ha : a ∈ L) (q : Nat) (x y : β)
    (hx : (F a)[q]? = some x) (hy : (F a)[q + 1]? = some y) :
    ∃ p, (L.flatMap F)[p]? = some x ∧ (L.flatMap F)[p + 1]? = some y := by
  induction L with
  | nil => cases ha
  | cons b L ih =>
    rw [List.flatMap_cons]
    rcases List.mem_cons.mp ha with h | h
    · subst h
      have hq : q + 1 < (F a).length := (List.getElem?_eq_some_iff.mp hy).1
      exact ⟨q, by rw [List.getElem?_append_left (by omega)]; exact hx,
                by rw [List.getElem?_append_left hq]; exact hy⟩
    · obtain ⟨p, h1, h2⟩ := ih h
      refine ⟨(F b).length + p, ?_, ?_⟩
      · rw [List.getElem?_append_right (by omega)]
        simpa using h1
      · rw [List.getElem?_append_right (by omega)]
        have : (F b).length + p + 1 - (F b).length = p + 1 := by omega
        rw [this]
        exact h2

/-- C8, as stated, is false in its ordering part: on the 2D cube the
destructor trace destroys the codimension levels in *increasing* order —
every codimension-1 mapping is destroyed before any codimension-2 mapping —
not in reverse codimension order. -/
theorem C8_counterexample :
    destructorTrace 2 (mappingSizes (cubeT 2)) =
      [.callDtor 1 0, .releaseStorage 1 0, .callDtor 1 1, .releaseStorage 1 1,
       .callDtor 1 2, .releaseStorage 1 2, .callDtor 1 3, .releaseStorage 1 3,
       .callDtor 2 0, .releaseStorage 2 0, .callDtor 2 1, .releaseStorage 2 1,
       .callDtor 2 2, .releaseStorage 2 2, .callDtor 2 3, .releaseStorage 2 3,
       .deleteCodim0] ∧
    (destructorTrace 2 (mappingSizes (cubeT 2))).indexOf (.callDtor 1 0) <
      (destructorTrace 2 (mappingSizes (cubeT 2))).indexOf (.callDtor 2 0) := by
  constructor
  · rfl
  · decide

/-- C8 (amended): in the destructor every placement-constructed mapping has
its destructor invoked immediately before its buffer is released; the
codimension levels 1..dim are destroyed in *increasing* codimension order
(the same order in which `Create` built them), and the codimension-0
mapping is the only one handled separately — by a plain `delete`, as the
last event of the trace. -/
theorem C8_destructor_order :
    ∀ (dim : Nat) (sizes : Nat → Nat), sizes 0 ≠ 0 →
      (∀ c, 1 ≤ c → c ≤ dim → ∀ i, i < sizes c →
        ∃ p, (destructorTrace dim sizes)[p]? = some (.callDtor c i) ∧
             (destructorTrace dim sizes)[p + 1]? = some (.releaseStorage c i)) ∧
      List.Pairwise (fun a b => evCodim a ≤ evCodim b)
        ((List.range' 1 dim).flatMap fun c => levelDestroy c (sizes c)) ∧
      (∀ e ∈ (List.range' 1 dim).flatMap fun c => levelDestroy c (sizes c),
        1 ≤ evCodim e ∧ e ≠ .deleteCodim0) ∧
      (destructorTrace dim sizes).getLast? = some .deleteCodim0 := by
  intro dim sizes hsz
  refine ⟨?_, ?_, ?_, ?_⟩
  · intro c hc1 hcd i hi
    have hmem : c ∈ List.range' 1 dim := by
      rw [List.mem_range'_1]
      omega
    have hget := levelDestroy_getElem c (sizes c) i hi
    obtain ⟨p, h1, h2⟩ := adjacent_in_flatMap (List.range' 1 dim)
      (fun c => levelDestroy c (sizes c)) c hmem (2 * i) _ _ hget.1 hget.2
    have hp : p + 1 < ((List.range' 1 dim).flatMap
        fun c => levelDestroy c (sizes c)).length := (List.getElem?_eq_some_iff.mp h2).1
    exact ⟨p, by rw [destructorTrace, List.getElem?_append_left (by omega)]; exact h1,
              by rw [destructorTrace, List.getElem?_append_left hp]; exact h2⟩
  · rw [List.pairwise_flatMap]
    constructor
    · intro c _
      refine List.pairwise_of_forall_mem_list fun a ha b hb => ?_
      rw [(mem_levelDestroy _ _ _ ha).1, (mem_levelDestroy _ _ _ hb).1]
    · refine List.Pairwise.imp ?_ (List.pairwise_lt_range' 1 dim)
      intro c c' hcc e he e' he'
      rw [(mem_levelDestroy _ _ _ he).1, (mem_levelDestroy _ _ _ he').1]
      omega
  · intro e he
    rw [List.mem_flatMap] at he
    obtain ⟨c, hc, hec⟩ := he
    have h := mem_levelDestroy _ _ _ hec
    rw [List.mem_range'_1] at hc
    exact ⟨h.1 ▸ hc.1, h.2⟩
  · rw [destructorTrace, if_pos hsz, List.getLast?_append]
    rfl

/-- Witness for C8 (amended) on the 2D cube: edge 2's destructor call is
immediately followed by its buffer release, and the trace ends with the
`delete` of the codimension-0 mapping. -/
theorem C8_witness :
    (∃ p, (destructorTrace 2 (mappingSizes (cubeT 2)))[p]? = some (.callDtor 1 2) ∧
          (destructorTrace 2 (mappingSizes (cubeT 2)))[p + 1]? =
            some (.releaseStorage 1 2)) ∧
    (destructorTrace 2 (mappingSizes (cubeT 2))).getLast? = some .deleteCodim0 := by
  have h := C8_destructor_order 2 (mappingSizes (cubeT 2)) (by decide)
  exact ⟨h.1 1 (by decide) (by decide) 2 (by decide), h.2.2.2⟩

end DuneGeometry
